import Mathlib

set_option maxHeartbeats 1600000

/- Verification of the feature-extraction and precipitation classification
engine of generate_csv.py (Weather-LLM-DataEngine).  Naive local civil
datetimes are modelled as seconds since an epoch that falls on a local
midnight, so that a day boundary is a multiple of 86400. -/

/-- Daily cutoff computed by generate_three_hour_intervals in
generate_csv.py: end_date = (current_time + timedelta(days=1)).date();
end_time_boundary = datetime.combine(end_date, min.time()) + 20 hours.
In seconds: round t0 + 86400 down to its day start, then add 72000. -/
def dailyCutoff (t0 : ℕ) : ℕ := ((t0 + 86400) / 86400) * 86400 + 72000

/-- Loop of generate_three_hour_intervals: while cur < bound, emit the
window from cur to min (cur + 10800) bound and advance cur to that end.
The fuel argument only bounds the iteration count; any fuel of at least
bound - cur yields the full run of the loop, because every iteration
advances cur by at least one second. -/
def mkIntervalsAux : ℕ → ℕ → ℕ → List (ℕ × ℕ)
  | 0, _, _ => []
  | fuel + 1, cur, bound =>
    if cur < bound then
      (cur, min (cur + 10800) bound) :: mkIntervalsAux fuel (min (cur + 10800) bound) bound
    else []

/-- generate_three_hour_intervals from generate_csv.py, on an already
parsed start instant: three-hour windows from t0 up to the daily cutoff,
the last window clipped to end exactly at the cutoff. -/
def generate_three_hour_intervals (t0 : ℕ) : List (ℕ × ℕ) :=
  mkIntervalsAux (dailyCutoff t0 - t0) t0 (dailyCutoff t0)

/-- Value of a decimal digit character, none for other characters. -/
def digitVal (c : Char) : Option ℕ := if c.isDigit then some (c.toNat - 48) else none

/-- Exactly four digits, as matched by the strptime directive for the
year in CPython. -/
def parse4 : List Char → Option (ℕ × List Char)
  | a :: b :: c :: d :: rest => do
    let x ← digitVal a
    let y ← digitVal b
    let z ← digitVal c
    let w ← digitVal d
    pure (((x * 10 + y) * 10 + z) * 10 + w, rest)
  | _ => none

/-- Month field of strptime: two digits 01 to 12, or one digit 1 to 9,
matching the CPython alternation 1[0-2], 0[1-9], [1-9]. -/
def parseMonthField : List Char → Option (ℕ × List Char)
  | [] => none
  | c1 :: rest1 =>
    match digitVal c1, rest1 with
    | none, _ => none
    | some d1, [] => if 1 ≤ d1 then some (d1, []) else none
    | some d1, c2 :: rest2 =>
      match digitVal c2 with
      | none => if 1 ≤ d1 then some (d1, rest1) else none
      | some d2 =>
        if d1 = 1 ∧ d2 ≤ 2 then some (10 + d2, rest2)
        else if d1 = 0 ∧ 1 ≤ d2 then some (d2, rest2)
        else if 1 ≤ d1 then some (d1, rest1)
        else none

/-- Day field of strptime: alternation 3[01], [12] digit, 0[1-9], [1-9]. -/
def parseDayField : List Char → Option (ℕ × List Char)
  | [] => none
  | c1 :: rest1 =>
    match digitVal c1, rest1 with
    | none, _ => none
    | some d1, [] => if 1 ≤ d1 then some (d1, []) else none
    | some d1, c2 :: rest2 =>
      match digitVal c2 with
      | none => if 1 ≤ d1 then some (d1, rest1) else none
      | some d2 =>
        if d1 = 3 ∧ d2 ≤ 1 then some (30 + d2, rest2)
        else if 1 ≤ d1 ∧ d1 ≤ 2 then some (d1 * 10 + d2, rest2)
        else if d1 = 0 ∧ 1 ≤ d2 then some (d2, rest2)
        else if 1 ≤ d1 then some (d1, rest1)
        else none

/-- Hour field of strptime: alternation 2[0-3], [01] digit, digit. -/
def parseHourField : List Char → Option (ℕ × List Char)
  | [] => none
  | c1 :: rest1 =>
    match digitVal c1, rest1 with
    | none, _ => none
    | some d1, [] => some (d1, [])
    | some d1, c2 :: rest2 =>
      match digitVal c2 with
      | none => some (d1, rest1)
      | some d2 =>
        if d1 = 2 ∧ d2 ≤ 3 then some (20 + d2, rest2)
        else if d1 ≤ 1 then some (d1 * 10 + d2, rest2)
        else some (d1, rest1)

/-- Minute or second field of strptime: alternation [0-5] digit, digit. -/
def parseMinSecField : List Char → Option (ℕ × List Char)
  | [] => none
  | c1 :: rest1 =>
    match digitVal c1, rest1 with
    | none, _ => none
    | some d1, [] => some (d1, [])
    | some d1, c2 :: rest2 =>
      match digitVal c2 with
      | none => some (d1, rest1)
      | some d2 => if d1 ≤ 5 then some (d1 * 10 + d2, rest2) else some (d1, rest1)

/-- Consume one expected literal character. -/
def expectChar (c : Char) : List Char → Option (List Char)
  | x :: rest => if x = c then some rest else none
  | [] => none

/-- Proleptic Gregorian leap year rule used by the datetime module. -/
def isLeapYear (y : ℕ) : Bool := decide ((y % 4 = 0 ∧ y % 100 ≠ 0) ∨ y % 400 = 0)

/-- Length of a month of a given year. -/
def daysInMonth (y m : ℕ) : ℕ :=
  if m = 2 then (if isLeapYear y then 29 else 28)
  else if m = 4 ∨ m = 6 ∨ m = 9 ∨ m = 11 then 30
  else 31

/-- Days in all years strictly before year y, counting from year 1. -/
def daysBeforeYear (y : ℕ) : ℕ :=
  (y - 1) * 365 + (y - 1) / 4 - (y - 1) / 100 + (y - 1) / 400

/-- Days in all months of year y strictly before month m. -/
def daysBeforeMonth (y m : ℕ) : ℕ :=
  (List.range (m - 1)).foldl (fun acc i => acc + daysInMonth y (i + 1)) 0

/-- datetime.strptime with the fixed format of generate_csv.py, as used
by generate_three_hour_intervals: parse year, month, day, hour, minute
and second with the CPython field patterns, require the literal
separators and full consumption of the input, and validate the date the
way the datetime constructor does.  The result is the instant in seconds
since the midnight starting year 1. -/
def strptimeSeconds (s : List Char) : Option ℕ := do
  let (y, s1) ← parse4 s
  let s2 ← expectChar '-' s1
  let (mo, s3) ← parseMonthField s2
  let s4 ← expectChar '-' s3
  let (d, s5) ← parseDayField s4
  let s6 ← expectChar 'T' s5
  let (h, s7) ← parseHourField s6
  let s8 ← expectChar ':' s7
  let (mi, s9) ← parseMinSecField s8
  let s10 ← expectChar ':' s9
  let (ss, s11) ← parseMinSecField s10
  if s11 = [] ∧ 1 ≤ y ∧ d ≤ daysInMonth y mo then
    some ((daysBeforeYear y + daysBeforeMonth y mo + (d - 1)) * 86400
      + h * 3600 + mi * 60 + ss)
  else none

/-- Full generate_three_hour_intervals including its parsing step: on a
string that strptime rejects, the source prints a message and returns
the empty list; otherwise it runs the window loop. -/
def generate_three_hour_intervals_of_string (s : List Char) : List (ℕ × ℕ) :=
  match strptimeSeconds s with
  | none => []
  | some t0 => generate_three_hour_intervals t0

/-- DST periods of the IANA zone Asia/Shanghai in the PRC era, as half
open ranges of UTC Unix seconds; inside them the UTC offset is 9 hours,
outside them (from 1949 on) it is a constant 8 hours.  Modelled from the
tz database that pytz exposes for this zone. -/
def shanghaiDst : List (ℤ × ℤ) :=
  [(515527200, 527014800), (545162400, 558464400), (577216800, 589914000),
   (608666400, 621968400), (640116000, 653418000), (671565600, 684867600)]

/-- Whether a UTC instant falls in a DST period of Asia/Shanghai. -/
def inDst (t : ℤ) : Bool := shanghaiDst.any (fun p => decide (p.1 ≤ t ∧ t < p.2))

/-- UTC offset of Asia/Shanghai at a UTC instant, in seconds. -/
def shanghaiOffset (t : ℤ) : ℤ := if inDst t then 32400 else 28800

/-- utc_to_beijing from generate_csv.py on a naive UTC instant: tag it as
UTC and convert with astimezone, giving an aware local datetime modelled
as the pair of local wall clock seconds and the applied UTC offset. -/
def utc_to_beijing (t : ℤ) : ℤ × ℤ := (t + shanghaiOffset t, shanghaiOffset t)

/-- pytz localize with is_dst false on a naive local wall time: the
standard offset is chosen unless the wall time exists only under DST. -/
def localizeShanghai (w : ℤ) : ℤ × ℤ :=
  if inDst (w - 28800) = false then (w, 28800)
  else if inDst (w - 32400) = true then (w, 32400)
  else (w, 28800)

/-- beijing_to_utc from generate_csv.py on a naive local wall time:
localize it, then convert with astimezone to UTC. -/
def beijing_to_utc (w : ℤ) : ℤ := (localizeShanghai w).1 - (localizeShanghai w).2

/-- astimezone to UTC on an aware local datetime, as beijing_to_utc does
when its input already carries timezone information. -/
def beijing_to_utc_aware (p : ℤ × ℤ) : ℤ := p.1 - p.2

/-- Result of a Python function whose return variable may never have
been assigned when the return statement runs. -/
inductive PyResult (α : Type) where
  | ok : α → PyResult α
  | unboundLocalError : PyResult α
deriving DecidableEq

/-- Body of the conditional chain of ws2scale_city in get_uvg_by_3h of
generate_csv.py; none models the final assignment of numpy nan. -/
def scaleAux (ws : ℚ) : Option ℚ :=
  if 0 ≤ ws ∧ ws < 5 then some 2
  else if 5 ≤ ws ∧ ws < 8 then some 4
  else if 8 ≤ ws ∧ ws < 10 then some 5
  else if 10 ≤ ws ∧ ws < 12 then some 6
  else if 12 ≤ ws ∧ ws < 14 then some 6.5
  else if 14 ≤ ws ∧ ws < 16 then some 7
  else if 16 ≤ ws ∧ ws < 18 then some 7.5
  else if 18 ≤ ws ∧ ws < 20 then some 8
  else if 20 ≤ ws ∧ ws < 22 then some 8.5
  else if 22 ≤ ws ∧ ws < 26 then some 9
  else if 26 ≤ ws ∧ ws < 27.5 then some 9.5
  else if 27.5 ≤ ws ∧ ws < 28.5 then some 10
  else if 28.5 ≤ ws ∧ ws < 30 then some 10.5
  else if 29.5 ≤ ws ∧ ws < 31.5 then some 11
  else if 31.5 ≤ ws ∧ ws < 33.5 then some 11.5
  else if 33.5 ≤ ws ∧ ws < 35.5 then some 12
  else if 35.5 ≤ ws ∧ ws < 37.5 then some 12.5
  else if 37.5 ≤ ws ∧ ws < 39.5 then some 13
  else if 39.5 ≤ ws ∧ ws < 41.5 then some 13.5
  else if 41.5 ≤ ws ∧ ws < 43.9 then some 14
  else if 43.9 ≤ ws ∧ ws < 46.2 then some 14.5
  else if 46.2 ≤ ws ∧ ws < 48.7 then some 15
  else if 48.7 ≤ ws ∧ ws < 51 then some 15.5
  else if 51 ≤ ws ∧ ws < 53.6 then some 16
  else if 53.6 ≤ ws ∧ ws < 56.1 then some 16.5
  else if 56.1 ≤ ws ∧ ws < 58.7 then some 17
  else if 58.7 ≤ ws ∧ ws < 61.3 then some 17.5
  else none

/-- ws2scale_city from generate_csv.py: when the absolute wind speed
equals the sentinel 32767 the chain is skipped entirely and the local
variable scale is never assigned, so the return statement raises an
unbound local variable error. -/
def ws2scale_city (ws : ℚ) : PyResult (Option ℚ) :=
  if |ws| ≠ 32767 then PyResult.ok (scaleAux ws) else PyResult.unboundLocalError

/-- Upper cutoffs and scale values of the chain of ws2scale_city, in
order; the two overlapping branches around 30 collapse to the effective
cutoffs 30 and 31.5. -/
def stairSteps : List (ℚ × ℚ) :=
  [(5, 2), (8, 4), (10, 5), (12, 6), (14, 6.5), (16, 7), (18, 7.5), (20, 8),
   (22, 8.5), (26, 9), (27.5, 9.5), (28.5, 10), (30, 10.5), (31.5, 11),
   (33.5, 11.5), (35.5, 12), (37.5, 12.5), (39.5, 13), (41.5, 13.5),
   (43.9, 14), (46.2, 14.5), (48.7, 15), (51, 15.5), (53.6, 16),
   (56.1, 16.5), (58.7, 17), (61.3, 17.5)]

/-- First table entry whose cutoff lies strictly above the speed. -/
def stairLookup : List (ℚ × ℚ) → ℚ → Option ℚ
  | [], _ => none
  | (c, s) :: rest, ws => if ws < c then some s else stairLookup rest ws

/-- Mean of a list of rationals, as the numpy mean of an array: the sum
divided by the size. -/
def listMeanQ (l : List ℚ) : ℚ := l.sum / (l.length : ℚ)

/- numpy arctan2 with first argument y and second argument x, by
quadrant, with the convention that arctan2 0 0 = 0. -/
open Classical in
noncomputable def arctan2 (y x : ℝ) : ℝ :=
  if 0 < x then Real.arctan (y / x)
  else if x < 0 then
    (if 0 ≤ y then Real.arctan (y / x) + Real.pi else Real.arctan (y / x) - Real.pi)
  else if 0 < y then Real.pi / 2
  else if y < 0 then -(Real.pi / 2)
  else 0

/-- Direction of one grid cell over one window in get_wdir_by_3h of
generate_csv.py: the time mean of the u and v samples of that cell,
then 180 + arctan2(u, v) scaled to degrees. -/
noncomputable def cellWindDirection (samples : List (ℚ × ℚ)) : ℝ :=
  180 + arctan2 ((listMeanQ (samples.map Prod.fst) : ℚ) : ℝ)
    ((listMeanQ (samples.map Prod.snd) : ℚ) : ℝ) * (180 / Real.pi)

/-- get_wdir_by_3h of generate_csv.py for one window: each cell carries
its list of wind component samples (u, v) over time; the emitted value
is the spatial mean, over the cells of the region, of the per cell
direction angles. -/
noncomputable def get_wdir_window (cells : List (List (ℚ × ℚ))) : ℝ :=
  ((cells.map cellWindDirection).sum) / (cells.length : ℝ)

/-- Modelled from the spec words for the wind direction claim: the time
mean per cell, then the spatial mean of the u and v components over the
region, and only then one direction from the single averaged vector. -/
noncomputable def wdirSpecWindow (cells : List (List (ℚ × ℚ))) : ℝ :=
  180 + arctan2
    ((listMeanQ (cells.map (fun c => listMeanQ (c.map Prod.fst))) : ℚ) : ℝ)
    ((listMeanQ (cells.map (fun c => listMeanQ (c.map Prod.snd))) : ℚ) : ℝ) * (180 / Real.pi)

/-- saturation_vapor_pressure of metpy (the Bolton 1980 fit), on degrees
Celsius, in hPa. -/
noncomputable def saturation_vapor_pressure (tC : ℝ) : ℝ :=
  6.112 * Real.exp (17.67 * tC / (tC + 243.5))

/-- relative_humidity_from_dewpoint of metpy: the ratio of the
saturation vapor pressures at the dewpoint and at the temperature. -/
noncomputable def relative_humidity_from_dewpoint (tC tdC : ℝ) : ℝ :=
  saturation_vapor_pressure tdC / saturation_vapor_pressure tC

/-- numpy max over a nonempty array as a fold; 0 stands in for the empty
list, which numpy rejects. -/
noncomputable def listMaxR : List ℝ → ℝ
  | [] => 0
  | x :: xs => xs.foldl max x

/-- numpy min over a nonempty array as a fold. -/
noncomputable def listMinR : List ℝ → ℝ
  | [] => 0
  | x :: xs => xs.foldl min x

/-- get_rh_by_days of generate_csv.py: the day series of temperature and
dewpoint samples in Kelvin at the chosen point, converted to Celsius,
mapped through the metpy relative humidity, scaled by 100; returns the
pair of the smallest and the largest humidity value. -/
noncomputable def get_rh_by_days (samples : List (ℝ × ℝ)) : ℝ × ℝ :=
  let rh := samples.map
    (fun p => relative_humidity_from_dewpoint (p.1 - 273.15) (p.2 - 273.15))
  (listMinR rh * 100, listMaxR rh * 100)

/-- Modelled from the spec words for the humidity claim: the August
Roche Magnus approximation with constants 17.625 and 243.04, and the
result clipped to the range 0 to 100. -/
noncomputable def magnusClippedRH (tC tdC : ℝ) : ℝ :=
  min 100 (max 0
    (100 * Real.exp (17.625 * tdC / (243.04 + tdC) - 17.625 * tC / (243.04 + tC))))

/-- One grid cell of the precipitation fields of get_rain_by_3h, in
meters as stored in the dataset: total precipitation, snowfall and
convective precipitation, already aligned on one grid. -/
structure RainCell where
  tp : ℚ
  sf : ℚ
  cp : ℚ

/-- Seasonal noise floor of get_rain_by_3h in millimeters: months April
to October use 0.2, the other months 0.15. -/
def tpFloor (mon : ℕ) : ℚ := if 4 ≤ mon ∧ mon < 11 then 0.2 else 0.15

/-- Masked millimeter precipitation of one cell: tp scaled by 1000 and
kept only when at least the seasonal floor; none models a nan cell
produced by the where mask of the source. -/
def maskedTp (mon : ℕ) (c : RainCell) : Option ℚ :=
  if tpFloor mon ≤ 1000 * c.tp then some (1000 * c.tp) else none

/-- Sleet mask of get_rain_by_3h: tp minus snowfall above 0.1 and
snowfall above 0.1, in millimeters; every comparison against a masked
tp value is false, as for nan. -/
def isSleet (mon : ℕ) (c : RainCell) : Bool :=
  match maskedTp mon c with
  | some t => decide (0.1 < t - 1000 * c.sf ∧ 0.1 < 1000 * c.sf)
  | none => false

/-- Snow mask of get_rain_by_3h: tp minus snowfall below 0.1 and
snowfall above 0.1. -/
def isSnow (mon : ℕ) (c : RainCell) : Bool :=
  match maskedTp mon c with
  | some t => decide (t - 1000 * c.sf < 0.1 ∧ 0.1 < 1000 * c.sf)
  | none => false

/-- Rain mask of get_rain_by_3h: tp minus snowfall above 0.1 and
snowfall below 0.1. -/
def isRain (mon : ℕ) (c : RainCell) : Bool :=
  match maskedTp mon c with
  | some t => decide (0.1 < t - 1000 * c.sf ∧ 1000 * c.sf < 0.1)
  | none => false

/-- Thunder mask of get_rain_by_3h: a rain cell whose convective
precipitation is at least 5 millimeters. -/
def isThunder (mon : ℕ) (c : RainCell) : Bool :=
  isRain mon c && decide ((5 : ℚ) ≤ 1000 * c.cp)

/-- Drizzle mask of get_rain_by_3h: a rain cell whose convective
precipitation lies strictly between 2 and 5 millimeters. -/
def isDrizzle (mon : ℕ) (c : RainCell) : Bool :=
  isRain mon c && decide ((2 : ℚ) < 1000 * c.cp ∧ 1000 * c.cp < 5)

/-- Largest element of a list of rationals, 0 for the empty list. -/
def listMaxQ : List ℚ → ℚ
  | [] => 0
  | x :: xs => xs.foldl max x

/-- Per window statistics of get_rain_by_3h: the cell counts of the five
masks, the count of precipitating cells, the total cell count, and the
nanmax values the decision tree consults. -/
structure RainCounts where
  sleet : ℕ
  snow : ℕ
  rain : ℕ
  thunder : ℕ
  drizzle : ℕ
  precip : ℕ
  total : ℕ
  maxRain : ℚ
  maxSnow : ℚ
  maxSleet : ℚ

/-- The statistics get_rain_by_3h computes from the cells of one
window. -/
def countsOf (mon : ℕ) (cells : List RainCell) : RainCounts :=
  { sleet := cells.countP (fun c => isSleet mon c)
    snow := cells.countP (fun c => isSnow mon c)
    rain := cells.countP (fun c => isRain mon c)
    thunder := cells.countP (fun c => isThunder mon c)
    drizzle := cells.countP (fun c => isDrizzle mon c)
    precip := cells.countP (fun c => isRain mon c || isSleet mon c || isSnow mon c)
    total := cells.length
    maxRain := listMaxQ ((cells.filter (fun c => isRain mon c)).map
      (fun c => (maskedTp mon c).getD 0))
    maxSnow := listMaxQ ((cells.filter (fun c => isSnow mon c)).map
      (fun c => 1000 * c.sf))
    maxSleet := listMaxQ ((cells.filter (fun c => isSleet mon c)).map
      (fun c => (maskedTp mon c).getD 0)) }

/-- rain_percent of get_rain_by_3h: precipitating cells over total
cells, 0 when the window has no cells. -/
def rainPercentOf (c : RainCounts) : ℚ :=
  if 0 < c.total then (c.precip : ℚ) / (c.total : ℚ) else 0

/-- Presence flag of sleet, the first entry of rain_type: set when the
window has cells and the sleet count reaches five percent of the
total. -/
def rainTypeSleet (c : RainCounts) : Bool :=
  decide (0 < c.total ∧ (1 : ℚ) / 20 ≤ (c.sleet : ℚ) / (c.total : ℚ))

/-- Presence flag of snow, the second entry of rain_type. -/
def rainTypeSnow (c : RainCounts) : Bool :=
  decide (0 < c.total ∧ (1 : ℚ) / 20 ≤ (c.snow : ℚ) / (c.total : ℚ))

/-- Presence flag of rain, the third entry of rain_type. -/
def rainTypeRain (c : RainCounts) : Bool :=
  decide (0 < c.total ∧ (1 : ℚ) / 20 ≤ (c.rain : ℚ) / (c.total : ℚ))

/-- Presence flag of thunder, the fourth entry of rain_type. -/
def rainTypeThunder (c : RainCounts) : Bool :=
  decide (0 < c.total ∧ (1 : ℚ) / 20 ≤ (c.thunder : ℚ) / (c.total : ℚ))

/-- Presence flag of drizzle, the fifth entry of rain_type. -/
def rainTypeDrizzle (c : RainCounts) : Bool :=
  decide (0 < c.total ∧ (1 : ℚ) / 20 ≤ (c.drizzle : ℚ) / (c.total : ℚ))

/-- Summer half year branch (months April to October) of the ifrain
decision of get_rain_by_3h, in priority order thunder, drizzle, rain,
with the coverage tiers on rain_percent and the 5 millimeter intensity
split of the top rain tier. -/
def summerIfrain (c : RainCounts) : ℚ :=
  let rp := rainPercentOf c
  if rainTypeThunder c then
    (if 0.8 ≤ rp then 3.0 else if 0.5 ≤ rp ∧ rp < 0.8 then 3.1 else 3.2)
  else if rainTypeDrizzle c then
    (if 0.8 ≤ rp then 2.0 else if 0.5 ≤ rp ∧ rp < 0.8 then 2.1 else 2.2)
  else if rainTypeRain c then
    (if 0.8 ≤ rp then (if 5 ≤ c.maxRain then 1.0 else 1.1)
     else if 0.5 ≤ rp ∧ rp < 0.8 then 1.2
     else if 0.2 ≤ rp ∧ rp < 0.5 then 1.3
     else 1.4)
  else 0

/-- Winter half year branch (months November to March) of the ifrain
decision of get_rain_by_3h, mirroring its nested conditionals. -/
def winterIfrain (c : RainCounts) : ℚ :=
  let rp := rainPercentOf c
  if rainTypeSnow c then
    (if rainTypeDrizzle c || rainTypeSleet c || rainTypeRain c then
      (if c.snow ≤ c.sleet + c.rain then
        (if 0.8 ≤ rp then 11.0 else if 0.5 ≤ rp ∧ rp < 0.8 then 11.1 else 11.2)
       else
        (if 0.8 ≤ rp then 15.0 else if 0.5 ≤ rp ∧ rp < 0.8 then 15.1 else 15.2))
     else
      (if 0.8 ≤ rp then (if 0.5 ≤ c.maxSnow then 12.0 else 12.1)
       else if 0.5 ≤ rp ∧ rp < 0.8 then 12.2 else 12.4))
  else if rainTypeSleet c || rainTypeRain c then
    (if rainTypeDrizzle c then
      (if rainTypeRain c && rainTypeSleet c then
        (if c.sleet ≤ c.rain then
          (if 0.8 ≤ rp then 5.0 else if 0.5 ≤ rp ∧ rp < 0.8 then 5.1 else 5.2)
         else
          (if 0.8 ≤ rp then 9.0 else if 0.5 ≤ rp ∧ rp < 0.8 then 9.1 else 9.2))
       else if rainTypeSleet c then
        (if 0.8 ≤ rp then 7.0 else if 0.5 ≤ rp ∧ rp < 0.8 then 7.1 else 7.2)
       else if rainTypeRain c then
        (if 0.8 ≤ rp then 2.0 else if 0.5 ≤ rp ∧ rp < 0.8 then 2.1 else 2.2)
       else 0)
     else
      (if rainTypeRain c && rainTypeSleet c then
        (if c.sleet ≤ c.rain then
          (if 0.8 ≤ rp then (if 5 ≤ c.maxRain then 4.0 else 4.1)
           else if 0.5 ≤ rp ∧ rp < 0.8 then 4.2 else 4.4)
         else
          (if 0.8 ≤ rp then (if 5 ≤ c.maxRain then 8.0 else 8.1)
           else if 0.5 ≤ rp ∧ rp < 0.8 then 8.2 else 8.4))
       else if rainTypeSleet c then
        (if 0.8 ≤ rp then (if 3 ≤ c.maxSleet then 6.0 else 6.1)
         else if 0.5 ≤ rp ∧ rp < 0.8 then 6.2 else 6.4)
       else if rainTypeRain c then
        (if 0.8 ≤ rp then (if 5 ≤ c.maxRain then 1.0 else 1.1)
         else if 0.5 ≤ rp ∧ rp < 0.8 then 1.2 else 1.4)
       else 0))
  else 0

/-- The ifrain decision of get_rain_by_3h on the per window statistics:
zero when no cell is precipitating, otherwise the summer or the winter
tree keyed on the month of the window start. -/
def ifrainFromCounts (mon : ℕ) (c : RainCounts) : ℚ :=
  if c.precip = 0 then 0
  else if 4 ≤ mon ∧ mon < 11 then summerIfrain c
  else winterIfrain c

/-- One window of get_rain_by_3h at cell level: the statistics computed
from the masked fields, then the ifrain decision. -/
def windowIfrain (mon : ℕ) (cells : List RainCell) : ℚ :=
  ifrainFromCounts mon (countsOf mon cells)

/-- Presence of a precipitation type that the decision tree of the
current season can act on: thunder, drizzle or rain in the summer
branch; snow, sleet or rain in the winter branch. -/
def seasonTypeFlag (mon : ℕ) (c : RainCounts) : Bool :=
  if 4 ≤ mon ∧ mon < 11 then rainTypeThunder c || rainTypeDrizzle c || rainTypeRain c
  else rainTypeSnow c || rainTypeSleet c || rainTypeRain c

/-- Inputs of one forecast day of the main loop of generate_csv.py, as
far as the failure handling is concerned: how many windows the day has,
whether the temperature variable could be read, and whether the
precipitation variables could be read. -/
structure DayInput where
  nWindows : ℕ
  tempOk : Bool
  rainOk : Bool

/-- Outcome of one day of the main loop. -/
inductive DayOutcome where
  | raised : DayOutcome
  | skipped : DayOutcome
  | rows : List ℕ → DayOutcome
deriving DecidableEq

/-- Outcome of the whole run: either some day raised an uncaught
exception and the loop died, or the run finished with the emitted rows,
one entry per emitted window. -/
inductive RunOutcome where
  | aborted : RunOutcome
  | finished : List ℕ → RunOutcome
deriving DecidableEq

/-- One day of the main loop of generate_csv.py: get_temperature_by_3h
returns lists of length nWindows, or empty lists when its variable is
missing; get_rain_by_3h returns window lists of length nWindows or
None.  A falsy ifrain_list makes the loop print a message and skip the
day; otherwise the pandas DataFrame constructor requires all column
lengths to be equal and raises ValueError when they differ, which
nothing catches. -/
def processDay (d : DayInput) : DayOutcome :=
  let tempLen : ℕ := if d.tempOk then d.nWindows else 0
  if d.rainOk = false ∨ d.nWindows = 0 then DayOutcome.skipped
  else if tempLen = d.nWindows then DayOutcome.rows (List.range d.nWindows)
  else DayOutcome.raised

/-- The date loop of the main block: process the days in order; an
uncaught exception aborts the whole run, a skipped day contributes no
rows, and the rows of the other days are emitted in order. -/
def runMain : List DayInput → RunOutcome
  | [] => RunOutcome.finished []
  | d :: ds =>
    match processDay d with
    | DayOutcome.raised => RunOutcome.aborted
    | DayOutcome.skipped => runMain ds
    | DayOutcome.rows r =>
      match runMain ds with
      | RunOutcome.aborted => RunOutcome.aborted
      | RunOutcome.finished rest => RunOutcome.finished (r ++ rest)

theorem lt_dailyCutoff (t0 : ℕ) : t0 < dailyCutoff t0 := by
  unfold dailyCutoff
  have h1 := Nat.div_add_mod (t0 + 86400) 86400
  have h2 : (t0 + 86400) % 86400 < 86400 := Nat.mod_lt _ (by norm_num)
  omega

theorem mkIntervalsAux_self (fuel b : ℕ) : mkIntervalsAux fuel b b = [] := by
  cases fuel <;> simp [mkIntervalsAux]

theorem mkIntervalsAux_mem : ∀ fuel cur bound, bound - cur ≤ fuel →
    ∀ w ∈ mkIntervalsAux fuel cur bound,
      cur ≤ w.1 ∧ w.1 < w.2 ∧ w.2 ≤ bound ∧ w.2 - w.1 ≤ 10800 := by
  intro fuel
  induction fuel with
  | zero => intro cur bound h w hw; simp [mkIntervalsAux] at hw
  | succ f ih =>
    intro cur bound h w hw
    by_cases hc : cur < bound
    · simp only [mkIntervalsAux, if_pos hc, List.mem_cons] at hw
      rcases hw with rfl | hw
      · refine ⟨le_refl _, ?_, ?_, ?_⟩ <;> simp <;> omega
      · have := ih (min (cur + 10800) bound) bound (by omega) w hw
        omega
    · simp [mkIntervalsAux, if_neg hc] at hw

theorem mkIntervalsAux_head : ∀ fuel cur bound, mkIntervalsAux fuel cur bound = [] ∨
    ∃ y rest, mkIntervalsAux fuel cur bound = (cur, y) :: rest := by
  intro fuel cur bound
  cases fuel with
  | zero => left; rfl
  | succ f =>
    by_cases hc : cur < bound
    · right
      refine ⟨min (cur + 10800) bound, mkIntervalsAux f (min (cur + 10800) bound) bound, ?_⟩
      simp [mkIntervalsAux, if_pos hc]
    · left; simp [mkIntervalsAux, if_neg hc]

theorem mkIntervalsAux_chain : ∀ fuel cur bound,
    (mkIntervalsAux fuel cur bound).Chain' (fun a b => a.2 = b.1) := by
  intro fuel
  induction fuel with
  | zero => intro cur bound; simp [mkIntervalsAux]
  | succ f ih =>
    intro cur bound
    by_cases hc : cur < bound
    · simp only [mkIntervalsAux, if_pos hc]
      refine List.chain'_cons'.mpr ⟨?_, ih _ _⟩
      intro y hy
      rcases mkIntervalsAux_head f (min (cur + 10800) bound) bound with he | ⟨z, rest, he⟩
      · rw [he] at hy; simp at hy
      · rw [he] at hy
        simp only [List.head?_cons, Option.mem_def, Option.some.injEq] at hy
        rw [← hy]
    · simp [mkIntervalsAux, if_neg hc]

theorem mkIntervalsAux_pairwise : ∀ fuel cur bound, bound - cur ≤ fuel →
    (mkIntervalsAux fuel cur bound).Pairwise (fun a b => a.2 ≤ b.1) := by
  intro fuel
  induction fuel with
  | zero => intro cur bound h; simp [mkIntervalsAux]
  | succ f ih =>
    intro cur bound h
    by_cases hc : cur < bound
    · simp only [mkIntervalsAux, if_pos hc, List.pairwise_cons]
      refine ⟨?_, ih _ _ (by omega)⟩
      intro w hw
      have := mkIntervalsAux_mem f _ _ (by omega) w hw
      exact this.1
    · simp [mkIntervalsAux, if_neg hc]

theorem mkIntervalsAux_cover : ∀ fuel cur bound, bound - cur ≤ fuel → ∀ x : ℕ,
    (∃ w ∈ mkIntervalsAux fuel cur bound, w.1 ≤ x ∧ x < w.2) ↔ (cur ≤ x ∧ x < bound) := by
  intro fuel
  induction fuel with
  | zero => intro cur bound h x; simp [mkIntervalsAux]; omega
  | succ f ih =>
    intro cur bound h x
    by_cases hc : cur < bound
    · simp only [mkIntervalsAux, if_pos hc, List.mem_cons]
      constructor
      · rintro ⟨w, hw | hw, hx⟩
        · rw [hw] at hx; simp at hx; omega
        · have hm := mkIntervalsAux_mem f _ _ (by omega) w hw
          omega
      · rintro ⟨h1, h2⟩
        by_cases hx : x < min (cur + 10800) bound
        · exact ⟨(cur, min (cur + 10800) bound), Or.inl rfl, h1, hx⟩
        · obtain ⟨w, hw, hh⟩ := (ih (min (cur + 10800) bound) bound (by omega) x).mpr (by omega)
          exact ⟨w, Or.inr hw, hh⟩
    · simp [mkIntervalsAux, if_neg hc]; omega

theorem mkIntervalsAux_last : ∀ fuel cur bound, bound - cur ≤ fuel → cur < bound →
    (mkIntervalsAux fuel cur bound).getLast?.map Prod.snd = some bound := by
  intro fuel
  induction fuel with
  | zero => intro cur bound h hc; omega
  | succ f ih =>
    intro cur bound h hc
    simp only [mkIntervalsAux, if_pos hc]
    by_cases hb : min (cur + 10800) bound < bound
    · have htail := ih (min (cur + 10800) bound) bound (by omega) hb
      rcases mkIntervalsAux_head f (min (cur + 10800) bound) bound with he | ⟨y, rest, he⟩
      · rw [he] at htail; simp at htail
      · rw [he] at htail ⊢
        rw [List.getLast?_cons_cons]
        exact htail
    · have hmin : min (cur + 10800) bound = bound := by omega
      rw [hmin, mkIntervalsAux_self]
      simp

/-- C2: for every start instant t0 the generated window sequence is
contiguous (each window ends where the next starts), non-overlapping
and ordered, each window is nonempty and spans at most 3 hours, the
union of the windows is exactly the half-open range from t0 to the daily
cutoff (20:00 local time on the day after t0), the first window starts
at t0 and the final window ends exactly at the cutoff. -/
theorem three_hour_intervals_partition (t0 : ℕ) :
    (generate_three_hour_intervals t0).Chain' (fun a b => a.2 = b.1) ∧
    (generate_three_hour_intervals t0).Pairwise (fun a b => a.2 ≤ b.1) ∧
    (∀ w ∈ generate_three_hour_intervals t0, w.1 < w.2 ∧ w.2 - w.1 ≤ 10800) ∧
    (∀ x : ℕ, (∃ w ∈ generate_three_hour_intervals t0, w.1 ≤ x ∧ x < w.2) ↔
      (t0 ≤ x ∧ x < dailyCutoff t0)) ∧
    (generate_three_hour_intervals t0).head?.map Prod.fst = some t0 ∧
    (generate_three_hour_intervals t0).getLast?.map Prod.snd = some (dailyCutoff t0) := by
  have hlt := lt_dailyCutoff t0
  have hfuel : dailyCutoff t0 - t0 ≤ dailyCutoff t0 - t0 := le_refl _
  refine ⟨mkIntervalsAux_chain _ _ _, mkIntervalsAux_pairwise _ _ _ hfuel, ?_, ?_, ?_, ?_⟩
  · intro w hw
    have := mkIntervalsAux_mem _ _ _ hfuel w hw
    exact ⟨this.2.1, this.2.2.2⟩
  · exact mkIntervalsAux_cover _ _ _ hfuel
  · rcases mkIntervalsAux_head (dailyCutoff t0 - t0) t0 (dailyCutoff t0) with he | ⟨y, rest, he⟩
    · exfalso
      have := (mkIntervalsAux_cover _ _ _ hfuel t0).mpr ⟨le_refl _, hlt⟩
      rw [he] at this
      simp at this
    · unfold generate_three_hour_intervals
      rw [he]
      simp
  · exact mkIntervalsAux_last _ _ _ hfuel hlt

theorem three_hour_intervals_partition_witness :
    (((0 : ℕ), (10800 : ℕ)) ∈ generate_three_hour_intervals 0) ∧
    ((0 : ℕ) < 10800 ∧ 10800 - 0 ≤ 10800) :=
  ⟨by decide, (three_hour_intervals_partition 0).2.2.1 (0, 10800) (by decide)⟩
theorem scaleAux_eq_stair (ws : ℚ) (h0 : 0 ≤ ws) :
    scaleAux ws = stairLookup stairSteps ws := by
  unfold scaleAux
  simp only [stairSteps, stairLookup]
  by_cases h1 : ws < 5
  · rw [if_pos ⟨by linarith, h1⟩]
    rw [if_pos h1]
  · have g1 : 5 ≤ ws := not_lt.mp h1
    rw [if_neg (fun hh => h1 hh.2)]
    by_cases h2 : ws < 8
    · rw [if_pos ⟨by linarith, h2⟩]
      rw [if_neg (not_lt.mpr g1), if_pos h2]
    · have g2 : 8 ≤ ws := not_lt.mp h2
      rw [if_neg (fun hh => h2 hh.2)]
      by_cases h3 : ws < 10
      · rw [if_pos ⟨by linarith, h3⟩]
        rw [if_neg (not_lt.mpr g1), if_neg (not_lt.mpr g2), if_pos h3]
      · have g3 : 10 ≤ ws := not_lt.mp h3
        rw [if_neg (fun hh => h3 hh.2)]
        by_cases h4 : ws < 12
        · rw [if_pos ⟨by linarith, h4⟩]
          rw [if_neg (not_lt.mpr g1), if_neg (not_lt.mpr g2), if_neg (not_lt.mpr g3), if_pos h4]
        · have g4 : 12 ≤ ws := not_lt.mp h4
          rw [if_neg (fun hh => h4 hh.2)]
          by_cases h5 : ws < 14
          · rw [if_pos ⟨by linarith, h5⟩]
            rw [if_neg (not_lt.mpr g1), if_neg (not_lt.mpr g2), if_neg (not_lt.mpr g3), if_neg (not_lt.mpr g4), if_pos h5]
          · have g5 : 14 ≤ ws := not_lt.mp h5
            rw [if_neg (fun hh => h5 hh.2)]
            by_cases h6 : ws < 16
            · rw [if_pos ⟨by linarith, h6⟩]
              rw [if_neg (not_lt.mpr g1), if_neg (not_lt.mpr g2), if_neg (not_lt.mpr g3), if_neg (not_lt.mpr g4), if_neg (not_lt.mpr g5), if_pos h6]
            · have g6 : 16 ≤ ws := not_lt.mp h6
              rw [if_neg (fun hh => h6 hh.2)]
              by_cases h7 : ws < 18
              · rw [if_pos ⟨by linarith, h7⟩]
                rw [if_neg (not_lt.mpr g1), if_neg (not_lt.mpr g2), if_neg (not_lt.mpr g3), if_neg (not_lt.mpr g4), if_neg (not_lt.mpr g5), if_neg (not_lt.mpr g6), if_pos h7]
              · have g7 : 18 ≤ ws := not_lt.mp h7
                rw [if_neg (fun hh => h7 hh.2)]
                by_cases h8 : ws < 20
                · rw [if_pos ⟨by linarith, h8⟩]
                  rw [if_neg (not_lt.mpr g1), if_neg (not_lt.mpr g2), if_neg (not_lt.mpr g3), if_neg (not_lt.mpr g4), if_neg (not_lt.mpr g5), if_neg (not_lt.mpr g6), if_neg (not_lt.mpr g7), if_pos h8]
                · have g8 : 20 ≤ ws := not_lt.mp h8
                  rw [if_neg (fun hh => h8 hh.2)]
                  by_cases h9 : ws < 22
                  · rw [if_pos ⟨by linarith, h9⟩]
                    rw [if_neg (not_lt.mpr g1), if_neg (not_lt.mpr g2), if_neg (not_lt.mpr g3), if_neg (not_lt.mpr g4), if_neg (not_lt.mpr g5), if_neg (not_lt.mpr g6), if_neg (not_lt.mpr g7), if_neg (not_lt.mpr g8), if_pos h9]
                  · have g9 : 22 ≤ ws := not_lt.mp h9
                    rw [if_neg (fun hh => h9 hh.2)]
                    by_cases h10 : ws < 26
                    · rw [if_pos ⟨by linarith, h10⟩]
                      rw [if_neg (not_lt.mpr g1), if_neg (not_lt.mpr g2), if_neg (not_lt.mpr g3), if_neg (not_lt.mpr g4), if_neg (not_lt.mpr g5), if_neg (not_lt.mpr g6), if_neg (not_lt.mpr g7), if_neg (not_lt.mpr g8), if_neg (not_lt.mpr g9), if_pos h10]
                    · have g10 : 26 ≤ ws := not_lt.mp h10
                      rw [if_neg (fun hh => h10 hh.2)]
                      by_cases h11 : ws < 27.5
                      · rw [if_pos ⟨by linarith, h11⟩]
                        rw [if_neg (not_lt.mpr g1), if_neg (not_lt.mpr g2), if_neg (not_lt.mpr g3), if_neg (not_lt.mpr g4), if_neg (not_lt.mpr g5), if_neg (not_lt.mpr g6), if_neg (not_lt.mpr g7), if_neg (not_lt.mpr g8), if_neg (not_lt.mpr g9), if_neg (not_lt.mpr g10), if_pos h11]
                      · have g11 : 27.5 ≤ ws := not_lt.mp h11
                        rw [if_neg (fun hh => h11 hh.2)]
                        by_cases h12 : ws < 28.5
                        · rw [if_pos ⟨by linarith, h12⟩]
                          rw [if_neg (not_lt.mpr g1), if_neg (not_lt.mpr g2), if_neg (not_lt.mpr g3), if_neg (not_lt.mpr g4), if_neg (not_lt.mpr g5), if_neg (not_lt.mpr g6), if_neg (not_lt.mpr g7), if_neg (not_lt.mpr g8), if_neg (not_lt.mpr g9), if_neg (not_lt.mpr g10), if_neg (not_lt.mpr g11), if_pos h12]
                        · have g12 : 28.5 ≤ ws := not_lt.mp h12
                          rw [if_neg (fun hh => h12 hh.2)]
                          by_cases h13 : ws < 30
                          · rw [if_pos ⟨by linarith, h13⟩]
                            rw [if_neg (not_lt.mpr g1), if_neg (not_lt.mpr g2), if_neg (not_lt.mpr g3), if_neg (not_lt.mpr g4), if_neg (not_lt.mpr g5), if_neg (not_lt.mpr g6), if_neg (not_lt.mpr g7), if_neg (not_lt.mpr g8), if_neg (not_lt.mpr g9), if_neg (not_lt.mpr g10), if_neg (not_lt.mpr g11), if_neg (not_lt.mpr g12), if_pos h13]
                          · have g13 : 30 ≤ ws := not_lt.mp h13
                            rw [if_neg (fun hh => h13 hh.2)]
                            by_cases h14 : ws < 31.5
                            · rw [if_pos ⟨by linarith, h14⟩]
                              rw [if_neg (not_lt.mpr g1), if_neg (not_lt.mpr g2), if_neg (not_lt.mpr g3), if_neg (not_lt.mpr g4), if_neg (not_lt.mpr g5), if_neg (not_lt.mpr g6), if_neg (not_lt.mpr g7), if_neg (not_lt.mpr g8), if_neg (not_lt.mpr g9), if_neg (not_lt.mpr g10), if_neg (not_lt.mpr g11), if_neg (not_lt.mpr g12), if_neg (not_lt.mpr g13), if_pos h14]
                            · have g14 : 31.5 ≤ ws := not_lt.mp h14
                              rw [if_neg (fun hh => h14 hh.2)]
                              by_cases h15 : ws < 33.5
                              · rw [if_pos ⟨by linarith, h15⟩]
                                rw [if_neg (not_lt.mpr g1), if_neg (not_lt.mpr g2), if_neg (not_lt.mpr g3), if_neg (not_lt.mpr g4), if_neg (not_lt.mpr g5), if_neg (not_lt.mpr g6), if_neg (not_lt.mpr g7), if_neg (not_lt.mpr g8), if_neg (not_lt.mpr g9), if_neg (not_lt.mpr g10), if_neg (not_lt.mpr g11), if_neg (not_lt.mpr g12), if_neg (not_lt.mpr g13), if_neg (not_lt.mpr g14), if_pos h15]
                              · have g15 : 33.5 ≤ ws := not_lt.mp h15
                                rw [if_neg (fun hh => h15 hh.2)]
                                by_cases h16 : ws < 35.5
                                · rw [if_pos ⟨by linarith, h16⟩]
                                  rw [if_neg (not_lt.mpr g1), if_neg (not_lt.mpr g2), if_neg (not_lt.mpr g3), if_neg (not_lt.mpr g4), if_neg (not_lt.mpr g5), if_neg (not_lt.mpr g6), if_neg (not_lt.mpr g7), if_neg (not_lt.mpr g8), if_neg (not_lt.mpr g9), if_neg (not_lt.mpr g10), if_neg (not_lt.mpr g11), if_neg (not_lt.mpr g12), if_neg (not_lt.mpr g13), if_neg (not_lt.mpr g14), if_neg (not_lt.mpr g15), if_pos h16]
                                · have g16 : 35.5 ≤ ws := not_lt.mp h16
                                  rw [if_neg (fun hh => h16 hh.2)]
                                  by_cases h17 : ws < 37.5
                                  · rw [if_pos ⟨by linarith, h17⟩]
                                    rw [if_neg (not_lt.mpr g1), if_neg (not_lt.mpr g2), if_neg (not_lt.mpr g3), if_neg (not_lt.mpr g4), if_neg (not_lt.mpr g5), if_neg (not_lt.mpr g6), if_neg (not_lt.mpr g7), if_neg (not_lt.mpr g8), if_neg (not_lt.mpr g9), if_neg (not_lt.mpr g10), if_neg (not_lt.mpr g11), if_neg (not_lt.mpr g12), if_neg (not_lt.mpr g13), if_neg (not_lt.mpr g14), if_neg (not_lt.mpr g15), if_neg (not_lt.mpr g16), if_pos h17]
                                  · have g17 : 37.5 ≤ ws := not_lt.mp h17
                                    rw [if_neg (fun hh => h17 hh.2)]
                                    by_cases h18 : ws < 39.5
                                    · rw [if_pos ⟨by linarith, h18⟩]
                                      rw [if_neg (not_lt.mpr g1), if_neg (not_lt.mpr g2), if_neg (not_lt.mpr g3), if_neg (not_lt.mpr g4), if_neg (not_lt.mpr g5), if_neg (not_lt.mpr g6), if_neg (not_lt.mpr g7), if_neg (not_lt.mpr g8), if_neg (not_lt.mpr g9), if_neg (not_lt.mpr g10), if_neg (not_lt.mpr g11), if_neg (not_lt.mpr g12), if_neg (not_lt.mpr g13), if_neg (not_lt.mpr g14), if_neg (not_lt.mpr g15), if_neg (not_lt.mpr g16), if_neg (not_lt.mpr g17), if_pos h18]
                                    · have g18 : 39.5 ≤ ws := not_lt.mp h18
                                      rw [if_neg (fun hh => h18 hh.2)]
                                      by_cases h19 : ws < 41.5
                                      · rw [if_pos ⟨by linarith, h19⟩]
                                        rw [if_neg (not_lt.mpr g1), if_neg (not_lt.mpr g2), if_neg (not_lt.mpr g3), if_neg (not_lt.mpr g4), if_neg (not_lt.mpr g5), if_neg (not_lt.mpr g6), if_neg (not_lt.mpr g7), if_neg (not_lt.mpr g8), if_neg (not_lt.mpr g9), if_neg (not_lt.mpr g10), if_neg (not_lt.mpr g11), if_neg (not_lt.mpr g12), if_neg (not_lt.mpr g13), if_neg (not_lt.mpr g14), if_neg (not_lt.mpr g15), if_neg (not_lt.mpr g16), if_neg (not_lt.mpr g17), if_neg (not_lt.mpr g18), if_pos h19]
                                      · have g19 : 41.5 ≤ ws := not_lt.mp h19
                                        rw [if_neg (fun hh => h19 hh.2)]
                                        by_cases h20 : ws < 43.9
                                        · rw [if_pos ⟨by linarith, h20⟩]
                                          rw [if_neg (not_lt.mpr g1), if_neg (not_lt.mpr g2), if_neg (not_lt.mpr g3), if_neg (not_lt.mpr g4), if_neg (not_lt.mpr g5), if_neg (not_lt.mpr g6), if_neg (not_lt.mpr g7), if_neg (not_lt.mpr g8), if_neg (not_lt.mpr g9), if_neg (not_lt.mpr g10), if_neg (not_lt.mpr g11), if_neg (not_lt.mpr g12), if_neg (not_lt.mpr g13), if_neg (not_lt.mpr g14), if_neg (not_lt.mpr g15), if_neg (not_lt.mpr g16), if_neg (not_lt.mpr g17), if_neg (not_lt.mpr g18), if_neg (not_lt.mpr g19), if_pos h20]
                                        · have g20 : 43.9 ≤ ws := not_lt.mp h20
                                          rw [if_neg (fun hh => h20 hh.2)]
                                          by_cases h21 : ws < 46.2
                                          · rw [if_pos ⟨by linarith, h21⟩]
                                            rw [if_neg (not_lt.mpr g1), if_neg (not_lt.mpr g2), if_neg (not_lt.mpr g3), if_neg (not_lt.mpr g4), if_neg (not_lt.mpr g5), if_neg (not_lt.mpr g6), if_neg (not_lt.mpr g7), if_neg (not_lt.mpr g8), if_neg (not_lt.mpr g9), if_neg (not_lt.mpr g10), if_neg (not_lt.mpr g11), if_neg (not_lt.mpr g12), if_neg (not_lt.mpr g13), if_neg (not_lt.mpr g14), if_neg (not_lt.mpr g15), if_neg (not_lt.mpr g16), if_neg (not_lt.mpr g17), if_neg (not_lt.mpr g18), if_neg (not_lt.mpr g19), if_neg (not_lt.mpr g20), if_pos h21]
                                          · have g21 : 46.2 ≤ ws := not_lt.mp h21
                                            rw [if_neg (fun hh => h21 hh.2)]
                                            by_cases h22 : ws < 48.7
                                            · rw [if_pos ⟨by linarith, h22⟩]
                                              rw [if_neg (not_lt.mpr g1), if_neg (not_lt.mpr g2), if_neg (not_lt.mpr g3), if_neg (not_lt.mpr g4), if_neg (not_lt.mpr g5), if_neg (not_lt.mpr g6), if_neg (not_lt.mpr g7), if_neg (not_lt.mpr g8), if_neg (not_lt.mpr g9), if_neg (not_lt.mpr g10), if_neg (not_lt.mpr g11), if_neg (not_lt.mpr g12), if_neg (not_lt.mpr g13), if_neg (not_lt.mpr g14), if_neg (not_lt.mpr g15), if_neg (not_lt.mpr g16), if_neg (not_lt.mpr g17), if_neg (not_lt.mpr g18), if_neg (not_lt.mpr g19), if_neg (not_lt.mpr g20), if_neg (not_lt.mpr g21), if_pos h22]
                                            · have g22 : 48.7 ≤ ws := not_lt.mp h22
                                              rw [if_neg (fun hh => h22 hh.2)]
                                              by_cases h23 : ws < 51
                                              · rw [if_pos ⟨by linarith, h23⟩]
                                                rw [if_neg (not_lt.mpr g1), if_neg (not_lt.mpr g2), if_neg (not_lt.mpr g3), if_neg (not_lt.mpr g4), if_neg (not_lt.mpr g5), if_neg (not_lt.mpr g6), if_neg (not_lt.mpr g7), if_neg (not_lt.mpr g8), if_neg (not_lt.mpr g9), if_neg (not_lt.mpr g10), if_neg (not_lt.mpr g11), if_neg (not_lt.mpr g12), if_neg (not_lt.mpr g13), if_neg (not_lt.mpr g14), if_neg (not_lt.mpr g15), if_neg (not_lt.mpr g16), if_neg (not_lt.mpr g17), if_neg (not_lt.mpr g18), if_neg (not_lt.mpr g19), if_neg (not_lt.mpr g20), if_neg (not_lt.mpr g21), if_neg (not_lt.mpr g22), if_pos h23]
                                              · have g23 : 51 ≤ ws := not_lt.mp h23
                                                rw [if_neg (fun hh => h23 hh.2)]
                                                by_cases h24 : ws < 53.6
                                                · rw [if_pos ⟨by linarith, h24⟩]
                                                  rw [if_neg (not_lt.mpr g1), if_neg (not_lt.mpr g2), if_neg (not_lt.mpr g3), if_neg (not_lt.mpr g4), if_neg (not_lt.mpr g5), if_neg (not_lt.mpr g6), if_neg (not_lt.mpr g7), if_neg (not_lt.mpr g8), if_neg (not_lt.mpr g9), if_neg (not_lt.mpr g10), if_neg (not_lt.mpr g11), if_neg (not_lt.mpr g12), if_neg (not_lt.mpr g13), if_neg (not_lt.mpr g14), if_neg (not_lt.mpr g15), if_neg (not_lt.mpr g16), if_neg (not_lt.mpr g17), if_neg (not_lt.mpr g18), if_neg (not_lt.mpr g19), if_neg (not_lt.mpr g20), if_neg (not_lt.mpr g21), if_neg (not_lt.mpr g22), if_neg (not_lt.mpr g23), if_pos h24]
                                                · have g24 : 53.6 ≤ ws := not_lt.mp h24
                                                  rw [if_neg (fun hh => h24 hh.2)]
                                                  by_cases h25 : ws < 56.1
                                                  · rw [if_pos ⟨by linarith, h25⟩]
                                                    rw [if_neg (not_lt.mpr g1), if_neg (not_lt.mpr g2), if_neg (not_lt.mpr g3), if_neg (not_lt.mpr g4), if_neg (not_lt.mpr g5), if_neg (not_lt.mpr g6), if_neg (not_lt.mpr g7), if_neg (not_lt.mpr g8), if_neg (not_lt.mpr g9), if_neg (not_lt.mpr g10), if_neg (not_lt.mpr g11), if_neg (not_lt.mpr g12), if_neg (not_lt.mpr g13), if_neg (not_lt.mpr g14), if_neg (not_lt.mpr g15), if_neg (not_lt.mpr g16), if_neg (not_lt.mpr g17), if_neg (not_lt.mpr g18), if_neg (not_lt.mpr g19), if_neg (not_lt.mpr g20), if_neg (not_lt.mpr g21), if_neg (not_lt.mpr g22), if_neg (not_lt.mpr g23), if_neg (not_lt.mpr g24), if_pos h25]
                                                  · have g25 : 56.1 ≤ ws := not_lt.mp h25
                                                    rw [if_neg (fun hh => h25 hh.2)]
                                                    by_cases h26 : ws < 58.7
                                                    · rw [if_pos ⟨by linarith, h26⟩]
                                                      rw [if_neg (not_lt.mpr g1), if_neg (not_lt.mpr g2), if_neg (not_lt.mpr g3), if_neg (not_lt.mpr g4), if_neg (not_lt.mpr g5), if_neg (not_lt.mpr g6), if_neg (not_lt.mpr g7), if_neg (not_lt.mpr g8), if_neg (not_lt.mpr g9), if_neg (not_lt.mpr g10), if_neg (not_lt.mpr g11), if_neg (not_lt.mpr g12), if_neg (not_lt.mpr g13), if_neg (not_lt.mpr g14), if_neg (not_lt.mpr g15), if_neg (not_lt.mpr g16), if_neg (not_lt.mpr g17), if_neg (not_lt.mpr g18), if_neg (not_lt.mpr g19), if_neg (not_lt.mpr g20), if_neg (not_lt.mpr g21), if_neg (not_lt.mpr g22), if_neg (not_lt.mpr g23), if_neg (not_lt.mpr g24), if_neg (not_lt.mpr g25), if_pos h26]
                                                    · have g26 : 58.7 ≤ ws := not_lt.mp h26
                                                      rw [if_neg (fun hh => h26 hh.2)]
                                                      by_cases h27 : ws < 61.3
                                                      · rw [if_pos ⟨by linarith, h27⟩]
                                                        rw [if_neg (not_lt.mpr g1), if_neg (not_lt.mpr g2), if_neg (not_lt.mpr g3), if_neg (not_lt.mpr g4), if_neg (not_lt.mpr g5), if_neg (not_lt.mpr g6), if_neg (not_lt.mpr g7), if_neg (not_lt.mpr g8), if_neg (not_lt.mpr g9), if_neg (not_lt.mpr g10), if_neg (not_lt.mpr g11), if_neg (not_lt.mpr g12), if_neg (not_lt.mpr g13), if_neg (not_lt.mpr g14), if_neg (not_lt.mpr g15), if_neg (not_lt.mpr g16), if_neg (not_lt.mpr g17), if_neg (not_lt.mpr g18), if_neg (not_lt.mpr g19), if_neg (not_lt.mpr g20), if_neg (not_lt.mpr g21), if_neg (not_lt.mpr g22), if_neg (not_lt.mpr g23), if_neg (not_lt.mpr g24), if_neg (not_lt.mpr g25), if_neg (not_lt.mpr g26), if_pos h27]
                                                      · have g27 : 61.3 ≤ ws := not_lt.mp h27
                                                        rw [if_neg (fun hh => h27 hh.2)]
                                                        rw [if_neg (not_lt.mpr g1), if_neg (not_lt.mpr g2), if_neg (not_lt.mpr g3), if_neg (not_lt.mpr g4), if_neg (not_lt.mpr g5), if_neg (not_lt.mpr g6), if_neg (not_lt.mpr g7), if_neg (not_lt.mpr g8), if_neg (not_lt.mpr g9), if_neg (not_lt.mpr g10), if_neg (not_lt.mpr g11), if_neg (not_lt.mpr g12), if_neg (not_lt.mpr g13), if_neg (not_lt.mpr g14), if_neg (not_lt.mpr g15), if_neg (not_lt.mpr g16), if_neg (not_lt.mpr g17), if_neg (not_lt.mpr g18), if_neg (not_lt.mpr g19), if_neg (not_lt.mpr g20), if_neg (not_lt.mpr g21), if_neg (not_lt.mpr g22), if_neg (not_lt.mpr g23), if_neg (not_lt.mpr g24), if_neg (not_lt.mpr g25), if_neg (not_lt.mpr g26), if_neg (not_lt.mpr g27)]

theorem stairLookup_mem : ∀ (l : List (ℚ × ℚ)) (ws s : ℚ),
    stairLookup l ws = some s → ∃ p ∈ l, p.2 = s := by
  intro l
  induction l with
  | nil => intro ws s h; simp [stairLookup] at h
  | cons p rest ih =>
    intro ws s h
    obtain ⟨c, v⟩ := p
    simp only [stairLookup] at h
    by_cases hc : ws < c
    · rw [if_pos hc] at h
      injection h with h2
      exact ⟨(c, v), List.mem_cons_self _ _, h2⟩
    · rw [if_neg hc] at h
      obtain ⟨q, hq, he⟩ := ih ws s h
      exact ⟨q, List.mem_cons_of_mem _ hq, he⟩

theorem stairLookup_isSome : ∀ (l : List (ℚ × ℚ)) (ws : ℚ),
    (∃ p ∈ l, ws < p.1) → (stairLookup l ws).isSome := by
  intro l
  induction l with
  | nil => rintro ws ⟨p, hp, _⟩; simp at hp
  | cons q rest ih =>
    rintro ws ⟨p, hp, hlt⟩
    obtain ⟨c, v⟩ := q
    simp only [stairLookup]
    by_cases hc : ws < c
    · rw [if_pos hc]; rfl
    · rw [if_neg hc]
      rcases List.mem_cons.mp hp with rfl | hmem
      · exact absurd hlt hc
      · exact ih ws ⟨p, hmem, hlt⟩

theorem stairLookup_mono : ∀ (l : List (ℚ × ℚ)),
    l.Pairwise (fun p q => p.2 ≤ q.2) → ∀ a b sa sb : ℚ, a ≤ b →
    stairLookup l a = some sa → stairLookup l b = some sb → sa ≤ sb := by
  intro l
  induction l with
  | nil => intro _ a b sa sb _ h; simp [stairLookup] at h
  | cons q rest ih =>
    intro hp a b sa sb hab ha hb
    obtain ⟨c, v⟩ := q
    rw [List.pairwise_cons] at hp
    simp only [stairLookup] at ha hb
    by_cases hac : a < c
    · rw [if_pos hac] at ha
      injection ha with ha
      by_cases hbc : b < c
      · rw [if_pos hbc] at hb
        injection hb with hb
        rw [← ha, ← hb]
      · rw [if_neg hbc] at hb
        obtain ⟨p, hmem, hpe⟩ := stairLookup_mem rest b sb hb
        rw [← ha, ← hpe]
        exact hp.1 p hmem
    · have hbc : ¬ b < c := fun h => hac (lt_of_le_of_lt hab h)
      rw [if_neg hac] at ha
      rw [if_neg hbc] at hb
      exact ih hp.2 a b sa sb hab ha hb

/-- C9: the gust scale mapping is monotone non-decreasing on its defined
domain: for speeds a and b with 0 ≤ a ≤ b < 61.3, ws2scale_city assigns
both speeds a numeric scale and the scale of a is at most that of b. -/
theorem gust_scale_monotone (a b : ℚ) (h0 : 0 ≤ a) (hab : a ≤ b) (hb : b < 61.3) :
    ∃ sa sb : ℚ, ws2scale_city a = PyResult.ok (some sa) ∧
      ws2scale_city b = PyResult.ok (some sb) ∧ sa ≤ sb := by
  have h0b : 0 ≤ b := le_trans h0 hab
  have ha : a < 61.3 := lt_of_le_of_lt hab hb
  have hsa : (stairLookup stairSteps a).isSome :=
    stairLookup_isSome _ _ ⟨(61.3, 17.5), by simp [stairSteps], ha⟩
  have hsb : (stairLookup stairSteps b).isSome :=
    stairLookup_isSome _ _ ⟨(61.3, 17.5), by simp [stairSteps], hb⟩
  obtain ⟨sa, hea⟩ := Option.isSome_iff_exists.mp hsa
  obtain ⟨sb, heb⟩ := Option.isSome_iff_exists.mp hsb
  have hna : |a| ≠ 32767 := by
    rw [abs_of_nonneg h0]
    intro heq
    rw [heq] at ha
    norm_num at ha
  have hnb : |b| ≠ 32767 := by
    rw [abs_of_nonneg h0b]
    intro heq
    rw [heq] at hb
    norm_num at hb
  refine ⟨sa, sb, ?_, ?_, stairLookup_mono stairSteps
    (by norm_num [stairSteps, List.pairwise_cons]) a b sa sb hab hea heb⟩
  · unfold ws2scale_city
    rw [if_pos hna, scaleAux_eq_stair a h0, hea]
  · unfold ws2scale_city
    rw [if_pos hnb, scaleAux_eq_stair b h0b, heb]

theorem gust_scale_monotone_witness :
    ∃ sa sb : ℚ, ws2scale_city 3 = PyResult.ok (some sa) ∧
      ws2scale_city 20 = PyResult.ok (some sb) ∧ sa ≤ sb :=
  gust_scale_monotone 3 20 (by norm_num) (by norm_num) (by norm_num)

/-- C3: on the sentinel wind speed 32767 the conditional chain of
ws2scale_city is skipped, its local result variable is never assigned,
and the call fails with an unbound local variable error instead of
returning an explicit undefined value. -/
theorem gust_sentinel_unbound_local :
    ws2scale_city 32767 = PyResult.unboundLocalError := by decide

/-- C7 counterexample: at the UTC instant 1988-07-01T00:00:00Z, which
falls inside a DST period of Asia/Shanghai, the conversion applies an
offset of 9 hours, so the offset is not the fixed 8 hours the claim
asserts for every instant. -/
theorem beijing_offset_not_fixed :
    (utc_to_beijing 583718400).1 - 583718400 ≠ 28800 := by decide

/-- C7 amended: converting UTC to local and back is the identity at
every instant; outside the six 1986 to 1991 DST periods the offset is
exactly 8 hours; and local to UTC and back returns the original wall
time whenever that wall time is not inside a spring forward gap. -/
theorem beijing_roundtrip (t w : ℤ)
    (hw : ¬ (inDst (w - 28800) = true ∧ inDst (w - 32400) = false)) :
    beijing_to_utc_aware (utc_to_beijing t) = t ∧
    (inDst t = false → utc_to_beijing t = (t + 28800, 28800)) ∧
    (utc_to_beijing (beijing_to_utc w)).1 = w := by
  refine ⟨by unfold beijing_to_utc_aware utc_to_beijing; ring, ?_, ?_⟩
  · intro h
    simp [utc_to_beijing, shanghaiOffset, h]
  · unfold beijing_to_utc localizeShanghai
    by_cases h1 : inDst (w - 28800) = false
    · rw [if_pos h1]
      simp only [utc_to_beijing, shanghaiOffset]
      rw [h1]
      simp
    · have h1t : inDst (w - 28800) = true := by
        cases hcase : inDst (w - 28800) with
        | false => exact absurd hcase h1
        | true => rfl
      have h2 : inDst (w - 32400) = true := by
        by_contra hcon
        exact hw ⟨h1t, by cases hcase : inDst (w - 32400) with
          | false => rfl
          | true => exact absurd hcase hcon⟩
      rw [if_neg h1, if_pos h2]
      simp only [utc_to_beijing, shanghaiOffset]
      rw [h2]
      simp

theorem beijing_roundtrip_witness :
    beijing_to_utc_aware (utc_to_beijing 1609459200) = 1609459200 ∧
    (inDst 1609459200 = false → utc_to_beijing 1609459200 = (1609459200 + 28800, 28800)) ∧
    (utc_to_beijing (beijing_to_utc 1609488000)).1 = 1609488000 :=
  beijing_roundtrip 1609459200 1609488000 (by decide)

theorem generate_three_hour_intervals_ne_nil (t0 : ℕ) :
    generate_three_hour_intervals t0 ≠ [] := by
  intro he
  have h := (mkIntervalsAux_cover (dailyCutoff t0 - t0) t0 (dailyCutoff t0) (le_refl _) t0).mpr
    ⟨le_refl _, lt_dailyCutoff t0⟩
  unfold generate_three_hour_intervals at he
  rw [he] at h
  simp at h

/-- C8 counterexample: the one character input g is rejected by
strptime, and the window generator silently returns the empty list
instead of failing with an error. -/
theorem malformed_input_silent_empty :
    strptimeSeconds ['g'] = none ∧
      generate_three_hour_intervals_of_string ['g'] = [] :=
  ⟨rfl, rfl⟩

/-- C8 amended: the generator returns the empty window list exactly when
strptime rejects its input; a parse failure is silent rather than an
error, and a successful parse always yields a nonempty window list. -/
theorem window_list_empty_iff_parse_failure (s : List Char) :
    generate_three_hour_intervals_of_string s = [] ↔ strptimeSeconds s = none := by
  unfold generate_three_hour_intervals_of_string
  cases he : strptimeSeconds s with
  | none => simp
  | some t0 =>
    constructor
    · intro h
      exact absurd h (generate_three_hour_intervals_ne_nil t0)
    · intro h
      cases h

/-- C10: in a winter month window the emitted ifrain code does not
depend on the thunder cell count: two statistics records that agree on
every field except the thunder count produce the same code, since the
thunder presence flag is consulted only by the summer branch. -/
theorem winter_ifrain_thunder_independent (mon : ℕ) (c : RainCounts) (t : ℕ)
    (hm : mon = 11 ∨ mon = 12 ∨ mon = 1 ∨ mon = 2 ∨ mon = 3) :
    ifrainFromCounts mon { c with thunder := t } = ifrainFromCounts mon c := by
  have hs : ¬ (4 ≤ mon ∧ mon < 11) := by omega
  unfold ifrainFromCounts
  by_cases hp : c.precip = 0
  · rw [if_pos hp, if_pos hp]
  · rw [if_neg hp, if_neg hp, if_neg hs, if_neg hs]
    rfl

theorem winter_ifrain_thunder_independent_witness :
    ifrainFromCounts 12 { (⟨2, 3, 4, 0, 1, 7, 10, 6, 1, 2⟩ : RainCounts) with thunder := 9 } =
      ifrainFromCounts 12 ⟨2, 3, 4, 0, 1, 7, 10, 6, 1, 2⟩ :=
  winter_ifrain_thunder_independent 12 ⟨2, 3, 4, 0, 1, 7, 10, 6, 1, 2⟩ 9 (Or.inr (Or.inl rfl))

/-- C4 counterexample: a run of two days where the first day lacks the
temperature variable aborts on the pandas column length mismatch and
loses the second day entirely, instead of omitting only the offending
rows and continuing. -/
theorem run_aborts_on_missing_temperature :
    runMain [⟨15, false, true⟩, ⟨15, true, true⟩] = RunOutcome.aborted := by decide

/-- C4 amended: only the precipitation extractor failure is handled, and
at day granularity: when the temperature variable is present on every
day the run never aborts, a day whose precipitation read fails is
skipped whole with all its rows omitted, and the rows of the remaining
days are emitted in order. -/
theorem run_continues_when_temperature_present (ds : List DayInput)
    (h : ∀ d ∈ ds, d.tempOk = true) :
    runMain ds = RunOutcome.finished
      ((ds.filter (fun d => d.rainOk && decide (0 < d.nWindows))).flatMap
        (fun d => List.range d.nWindows)) := by
  induction ds with
  | nil => rfl
  | cons d t ih =>
    have hd := h d (List.mem_cons_self d t)
    have ht := ih (fun x hx => h x (List.mem_cons_of_mem _ hx))
    by_cases hr : d.rainOk = false ∨ d.nWindows = 0
    · have hpd : processDay d = DayOutcome.skipped := by
        unfold processDay
        rw [if_pos hr]
      have hflt : (d.rainOk && decide (0 < d.nWindows)) = false := by
        rcases hr with h1 | h1
        · simp [h1]
        · simp [h1]
      simp only [runMain, hpd, List.filter_cons, hflt]
      exact ht
    · have h1 : d.rainOk = true := by
        cases hb : d.rainOk with
        | false => exact absurd (Or.inl hb) hr
        | true => rfl
      have h2 : d.nWindows ≠ 0 := fun hz => hr (Or.inr hz)
      have hpd : processDay d = DayOutcome.rows (List.range d.nWindows) := by
        unfold processDay
        rw [if_neg hr, if_pos (by simp [hd])]
      have hflt : (d.rainOk && decide (0 < d.nWindows)) = true := by
        simp [h1]
        omega
      simp only [runMain, hpd, ht, List.filter_cons, hflt, if_pos, List.flatMap_cons]

theorem run_continues_when_temperature_present_witness :
    runMain [⟨2, true, false⟩, ⟨1, true, true⟩] = RunOutcome.finished
      (([(⟨2, true, false⟩ : DayInput), ⟨1, true, true⟩].filter
        (fun d => d.rainOk && decide (0 < d.nWindows))).flatMap
        (fun d => List.range d.nWindows)) :=
  run_continues_when_temperature_present _ (by decide)

theorem rainTypeFlagZero (n total : ℕ) (h : n = 0) :
    decide (0 < total ∧ (1 : ℚ) / 20 ≤ (n : ℚ) / (total : ℚ)) = false := by
  subst h
  simp only [Nat.cast_zero, zero_div, decide_eq_false_iff_not, not_and]
  intro _
  norm_num

theorem countsOf_rain_le_precip (mon : ℕ) (cells : List RainCell) :
    (countsOf mon cells).rain ≤ (countsOf mon cells).precip :=
  List.countP_mono_left (fun c _ h => by simp [h])

theorem countsOf_sleet_le_precip (mon : ℕ) (cells : List RainCell) :
    (countsOf mon cells).sleet ≤ (countsOf mon cells).precip :=
  List.countP_mono_left (fun c _ h => by simp [h])

theorem countsOf_snow_le_precip (mon : ℕ) (cells : List RainCell) :
    (countsOf mon cells).snow ≤ (countsOf mon cells).precip :=
  List.countP_mono_left (fun c _ h => by simp [h])

theorem countsOf_thunder_le_rain (mon : ℕ) (cells : List RainCell) :
    (countsOf mon cells).thunder ≤ (countsOf mon cells).rain :=
  List.countP_mono_left (fun c _ h => by
    simp only [isThunder, Bool.and_eq_true] at h
    exact h.1)

theorem countsOf_drizzle_le_rain (mon : ℕ) (cells : List RainCell) :
    (countsOf mon cells).drizzle ≤ (countsOf mon cells).rain :=
  List.countP_mono_left (fun c _ h => by
    simp only [isDrizzle, Bool.and_eq_true] at h
    exact h.1)

theorem summerIfrain_eq_zero_iff (c : RainCounts) :
    summerIfrain c = 0 ↔
      (rainTypeThunder c || rainTypeDrizzle c || rainTypeRain c) = false := by
  unfold summerIfrain
  cases hT : rainTypeThunder c with
  | true =>
    refine iff_of_false ?_ (by simp)
    simp only [if_true]
    split_ifs <;> norm_num
  | false =>
    cases hD : rainTypeDrizzle c with
    | true =>
      refine iff_of_false ?_ (by simp)
      simp only [if_true, Bool.false_eq_true, if_false]
      split_ifs <;> norm_num
    | false =>
      cases hR : rainTypeRain c with
      | true =>
        refine iff_of_false ?_ (by simp)
        simp only [if_true, Bool.false_eq_true, if_false]
        split_ifs <;> norm_num
      | false => simp

theorem winterIfrain_eq_zero_iff (c : RainCounts) :
    winterIfrain c = 0 ↔
      (rainTypeSnow c || rainTypeSleet c || rainTypeRain c) = false := by
  unfold winterIfrain
  cases hS : rainTypeSnow c with
  | true =>
    refine iff_of_false ?_ (by simp)
    simp only [if_true]
    split_ifs <;> norm_num
  | false =>
    cases hSl : rainTypeSleet c with
    | true =>
      refine iff_of_false ?_ (by simp)
      simp only [if_true, Bool.false_eq_true, if_false, Bool.true_or, Bool.or_true,
        Bool.and_true, Bool.false_or, Bool.or_false]
      split_ifs <;> norm_num
    | false =>
      cases hR : rainTypeRain c with
      | true =>
        refine iff_of_false ?_ (by simp)
        simp only [if_true, Bool.false_eq_true, if_false, Bool.true_or, Bool.or_true,
          Bool.and_false, Bool.true_and, Bool.false_or, Bool.or_false]
        split_ifs <;> norm_num
      | false => simp

/-- C1 counterexample: a July window consisting of one sleet cell has a
positive precipitating cell count, yet the emitted code is 0, because
the summer branch only acts on the thunder, drizzle and rain flags. -/
theorem ifrain_zero_with_positive_precip :
    windowIfrain 7 [(⟨1, 0.5, 0⟩ : RainCell)] = 0 ∧
      (countsOf 7 [(⟨1, 0.5, 0⟩ : RainCell)]).precip = 1 := by
  have hm1 : maskedTp 7 (⟨1, 0.5, 0⟩ : RainCell) = some 1000 := by
    norm_num [maskedTp, tpFloor]
  have hsl : isSleet 7 (⟨1, 0.5, 0⟩ : RainCell) = true := by
    simp only [isSleet, hm1]
    norm_num
  have hsn : isSnow 7 (⟨1, 0.5, 0⟩ : RainCell) = false := by
    simp only [isSnow, hm1]
    norm_num
  have hra : isRain 7 (⟨1, 0.5, 0⟩ : RainCell) = false := by
    simp only [isRain, hm1]
    norm_num
  have hth : isThunder 7 (⟨1, 0.5, 0⟩ : RainCell) = false := by
    simp [isThunder, hra]
  have hdr : isDrizzle 7 (⟨1, 0.5, 0⟩ : RainCell) = false := by
    simp [isDrizzle, hra]
  have hcounts : countsOf 7 [(⟨1, 0.5, 0⟩ : RainCell)] =
      ⟨1, 0, 0, 0, 0, 1, 1, 0, 0, 1000⟩ := by
    simp [countsOf, hsl, hsn, hra, hth, hdr, hm1, listMaxQ]
  constructor
  · unfold windowIfrain
    rw [hcounts]
    unfold ifrainFromCounts summerIfrain
    norm_num [rainTypeThunder, rainTypeDrizzle, rainTypeRain]
  · rw [hcounts]

/-- C1 amended: the emitted code is 0 exactly when no presence flag the
season acts on is set (thunder, drizzle or rain in summer; snow, sleet
or rain in winter).  A window without precipitating cells therefore
always gets 0, and a nonzero code still implies precipitating cells;
but a positive precipitating count whose types all stay below the five
percent presence threshold, or whose only types are outside the summer
table, also yields 0, so the claimed equivalence with the precipitating
count fails in that direction. -/
theorem ifrain_zero_iff_no_season_flag (mon : ℕ) (cells : List RainCell) :
    windowIfrain mon cells = 0 ↔ seasonTypeFlag mon (countsOf mon cells) = false := by
  unfold windowIfrain ifrainFromCounts seasonTypeFlag
  by_cases hp : (countsOf mon cells).precip = 0
  · rw [if_pos hp]
    have hr : (countsOf mon cells).rain = 0 := by
      have := countsOf_rain_le_precip mon cells
      omega
    have hsl : (countsOf mon cells).sleet = 0 := by
      have := countsOf_sleet_le_precip mon cells
      omega
    have hsn : (countsOf mon cells).snow = 0 := by
      have := countsOf_snow_le_precip mon cells
      omega
    have hth : (countsOf mon cells).thunder = 0 := by
      have := countsOf_thunder_le_rain mon cells
      omega
    have hdr : (countsOf mon cells).drizzle = 0 := by
      have := countsOf_drizzle_le_rain mon cells
      omega
    have e1 : rainTypeThunder (countsOf mon cells) = false := rainTypeFlagZero _ _ hth
    have e2 : rainTypeDrizzle (countsOf mon cells) = false := rainTypeFlagZero _ _ hdr
    have e3 : rainTypeRain (countsOf mon cells) = false := rainTypeFlagZero _ _ hr
    have e4 : rainTypeSleet (countsOf mon cells) = false := rainTypeFlagZero _ _ hsl
    have e5 : rainTypeSnow (countsOf mon cells) = false := rainTypeFlagZero _ _ hsn
    simp only [e1, e2, e3, e4, e5, Bool.or_self, Bool.or_false, Bool.false_or, ite_self]
  · rw [if_neg hp]
    by_cases hs : 4 ≤ mon ∧ mon < 11
    · rw [if_pos hs, if_pos hs]
      exact summerIfrain_eq_zero_iff _
    · rw [if_neg hs, if_neg hs]
      exact winterIfrain_eq_zero_iff _

theorem foldl_max_start_le : ∀ (l : List ℝ) (a : ℝ), a ≤ l.foldl max a := by
  intro l
  induction l with
  | nil => intro a; simp
  | cons b t ih => intro a; exact le_trans (le_max_left a b) (ih (max a b))

theorem mem_le_foldl_max : ∀ (l : List ℝ) (a x : ℝ), x ∈ l → x ≤ l.foldl max a := by
  intro l
  induction l with
  | nil => intro a x h; simp at h
  | cons b t ih =>
    intro a x h
    rcases List.mem_cons.mp h with rfl | hm
    · exact le_trans (le_max_right a x) (foldl_max_start_le t (max a x))
    · exact ih (max a b) x hm

theorem foldl_max_mem : ∀ (l : List ℝ) (a : ℝ), l.foldl max a = a ∨ l.foldl max a ∈ l := by
  intro l
  induction l with
  | nil => intro a; left; rfl
  | cons b t ih =>
    intro a
    rcases ih (max a b) with h | h
    · rcases le_total a b with hab | hab
      · right
        rw [List.foldl_cons, h, max_eq_right hab]
        exact List.mem_cons_self _ _
      · left
        rw [List.foldl_cons, h, max_eq_left hab]
    · right
      exact List.mem_cons_of_mem _ h

theorem foldl_min_start_le : ∀ (l : List ℝ) (a : ℝ), l.foldl min a ≤ a := by
  intro l
  induction l with
  | nil => intro a; simp
  | cons b t ih => intro a; exact le_trans (ih (min a b)) (min_le_left a b)

theorem foldl_min_le_mem : ∀ (l : List ℝ) (a x : ℝ), x ∈ l → l.foldl min a ≤ x := by
  intro l
  induction l with
  | nil => intro a x h; simp at h
  | cons b t ih =>
    intro a x h
    rcases List.mem_cons.mp h with rfl | hm
    · exact le_trans (foldl_min_start_le t (min a x)) (min_le_right a x)
    · exact ih (min a b) x hm

theorem foldl_min_mem : ∀ (l : List ℝ) (a : ℝ), l.foldl min a = a ∨ l.foldl min a ∈ l := by
  intro l
  induction l with
  | nil => intro a; left; rfl
  | cons b t ih =>
    intro a
    rcases ih (min a b) with h | h
    · rcases le_total a b with hab | hab
      · left
        rw [List.foldl_cons, h, min_eq_left hab]
      · right
        rw [List.foldl_cons, h, min_eq_right hab]
        exact List.mem_cons_self _ _
    · right
      exact List.mem_cons_of_mem _ h

theorem le_listMaxR (l : List ℝ) (x : ℝ) (h : x ∈ l) : x ≤ listMaxR l := by
  cases l with
  | nil => simp at h
  | cons b t =>
    unfold listMaxR
    rcases List.mem_cons.mp h with rfl | hm
    · exact foldl_max_start_le t x
    · exact mem_le_foldl_max t b x hm

theorem listMaxR_mem (l : List ℝ) (h : l ≠ []) : listMaxR l ∈ l := by
  cases l with
  | nil => exact absurd rfl h
  | cons b t =>
    simp only [listMaxR]
    rcases foldl_max_mem t b with he | he
    · rw [he]
      exact List.mem_cons_self _ _
    · exact List.mem_cons_of_mem _ he

theorem listMinR_le (l : List ℝ) (x : ℝ) (h : x ∈ l) : listMinR l ≤ x := by
  cases l with
  | nil => simp at h
  | cons b t =>
    unfold listMinR
    rcases List.mem_cons.mp h with rfl | hm
    · exact foldl_min_start_le t x
    · exact foldl_min_le_mem t b x hm

theorem listMinR_mem (l : List ℝ) (h : l ≠ []) : listMinR l ∈ l := by
  cases l with
  | nil => exact absurd rfl h
  | cons b t =>
    simp only [listMinR]
    rcases foldl_min_mem t b with he | he
    · rw [he]
      exact List.mem_cons_self _ _
    · exact List.mem_cons_of_mem _ he

/-- C5 amended: over a nonempty day of samples, the emitted pair bounds
every per sample relative humidity value from below and above, and both
components are attained by some sample, where the per sample value is
100 times the metpy ratio of Bolton saturation vapor pressures (the
constants are 17.67 and 243.5, not the August Roche Magnus constants of
the claim, and no clipping to the range 0 to 100 is applied). -/
theorem rh_day_min_max (samples : List (ℝ × ℝ)) (h : samples ≠ []) :
    (∀ p ∈ samples,
      (get_rh_by_days samples).1 ≤
        relative_humidity_from_dewpoint (p.1 - 273.15) (p.2 - 273.15) * 100 ∧
      relative_humidity_from_dewpoint (p.1 - 273.15) (p.2 - 273.15) * 100 ≤
        (get_rh_by_days samples).2) ∧
    (∃ p ∈ samples, (get_rh_by_days samples).2 =
      relative_humidity_from_dewpoint (p.1 - 273.15) (p.2 - 273.15) * 100) ∧
    (∃ p ∈ samples, (get_rh_by_days samples).1 =
      relative_humidity_from_dewpoint (p.1 - 273.15) (p.2 - 273.15) * 100) := by
  have hne : samples.map
      (fun p => relative_humidity_from_dewpoint (p.1 - 273.15) (p.2 - 273.15)) ≠ [] := by
    simpa using h
  refine ⟨?_, ?_, ?_⟩
  · intro p hp
    have hmem : relative_humidity_from_dewpoint (p.1 - 273.15) (p.2 - 273.15) ∈
        samples.map (fun p => relative_humidity_from_dewpoint (p.1 - 273.15) (p.2 - 273.15)) :=
      List.mem_map_of_mem _ hp
    constructor
    · have hb := listMinR_le _ _ hmem
      simp only [get_rh_by_days]
      nlinarith
    · have hb := le_listMaxR _ _ hmem
      simp only [get_rh_by_days]
      nlinarith
  · have hmem := listMaxR_mem _ hne
    rcases List.mem_map.mp hmem with ⟨p, hp, he⟩
    refine ⟨p, hp, ?_⟩
    simp only [get_rh_by_days]
    rw [← he]
  · have hmem := listMinR_mem _ hne
    rcases List.mem_map.mp hmem with ⟨p, hp, he⟩
    refine ⟨p, hp, ?_⟩
    simp only [get_rh_by_days]
    rw [← he]

theorem rh_day_min_max_witness :
    ∃ p ∈ [((283.15 : ℝ), (283.15 : ℝ))],
      (get_rh_by_days [((283.15 : ℝ), (283.15 : ℝ))]).2 =
        relative_humidity_from_dewpoint (p.1 - 273.15) (p.2 - 273.15) * 100 :=
  (rh_day_min_max [((283.15 : ℝ), (283.15 : ℝ))] (by simp)).2.1

theorem relative_humidity_exp (t td : ℝ) :
    relative_humidity_from_dewpoint t td =
      Real.exp (17.67 * td / (td + 243.5) - 17.67 * t / (t + 243.5)) := by
  unfold relative_humidity_from_dewpoint saturation_vapor_pressure
  rw [Real.exp_sub]
  rw [mul_div_mul_left _ _ (by norm_num : (6.112 : ℝ) ≠ 0)]

theorem get_rh_single (a b : ℝ) :
    (get_rh_by_days [(a, b)]).2 =
      relative_humidity_from_dewpoint (a - 273.15) (b - 273.15) * 100 := by
  simp [get_rh_by_days, listMaxR]

/-- C5 counterexample: with the single sample T = 283.15 K (10 C) and
dewpoint 293.15 K (20 C) the emitted maximum humidity exceeds 100, so
the source output is not clipped to the range 0 to 100 as the claim
states; and with the sample T = 293.15 K, dewpoint 283.15 K the emitted
value differs from the clipped August Roche Magnus value of the claim,
because metpy evaluates the Bolton fit with constants 17.67 and 243.5
rather than 17.625 and 243.04. -/
theorem rh_not_clipped_not_magnus :
    100 < (get_rh_by_days [((283.15 : ℝ), (293.15 : ℝ))]).2 ∧
    (get_rh_by_days [((293.15 : ℝ), (283.15 : ℝ))]).2 ≠
      magnusClippedRH (293.15 - 273.15) (283.15 - 273.15) := by
  constructor
  · rw [get_rh_single, relative_humidity_exp]
    have hE : (0 : ℝ) < 17.67 * (293.15 - 273.15) / ((293.15 - 273.15) + 243.5)
        - 17.67 * (283.15 - 273.15) / ((283.15 - 273.15) + 243.5) := by norm_num
    have h1 := Real.one_lt_exp_iff.mpr hE
    nlinarith
  · rw [get_rh_single, relative_humidity_exp]
    have hm : magnusClippedRH (293.15 - 273.15) (283.15 - 273.15) =
        100 * Real.exp (17.625 * (283.15 - 273.15) / (243.04 + (283.15 - 273.15))
          - 17.625 * (293.15 - 273.15) / (243.04 + (293.15 - 273.15))) := by
      unfold magnusClippedRH
      have hneg : (17.625 * (283.15 - 273.15) / (243.04 + (283.15 - 273.15))
          - 17.625 * (293.15 - 273.15) / (243.04 + (293.15 - 273.15)) : ℝ) < 0 := by
        norm_num
      have hlt1 := Real.exp_lt_one_iff.mpr hneg
      have hpos := Real.exp_pos (17.625 * (283.15 - 273.15) / (243.04 + (283.15 - 273.15))
        - 17.625 * (293.15 - 273.15) / (243.04 + (293.15 - 273.15)))
      rw [max_eq_right (by nlinarith), min_eq_right (by nlinarith)]
    rw [hm]
    intro heq
    have h3 : Real.exp (17.67 * (283.15 - 273.15) / ((283.15 - 273.15) + 243.5)
        - 17.67 * (293.15 - 273.15) / ((293.15 - 273.15) + 243.5)) =
        Real.exp (17.625 * (283.15 - 273.15) / (243.04 + (283.15 - 273.15))
          - 17.625 * (293.15 - 273.15) / (243.04 + (293.15 - 273.15))) := by
      nlinarith [heq]
    have h4 := Real.exp_injective h3
    norm_num at h4

theorem halfpi_deg : Real.pi / 2 * (180 / Real.pi) = 90 := by
  have hpi := Real.pi_ne_zero
  field_simp
  ring

theorem arctan2_pos_y : arctan2 (1 : ℝ) 0 = Real.pi / 2 := by
  unfold arctan2
  rw [if_neg (lt_irrefl 0), if_neg (lt_irrefl 0), if_pos one_pos]

theorem arctan2_neg_y : arctan2 (-1 : ℝ) 0 = -(Real.pi / 2) := by
  unfold arctan2
  rw [if_neg (lt_irrefl 0), if_neg (lt_irrefl 0), if_neg (by norm_num), if_pos (by norm_num)]

theorem arctan2_third : arctan2 ((1 : ℝ) / 3) 0 = Real.pi / 2 := by
  unfold arctan2
  rw [if_neg (lt_irrefl 0), if_neg (lt_irrefl 0), if_pos (by norm_num)]

theorem cell_dir_east : cellWindDirection [((1 : ℚ), (0 : ℚ))] = 270 := by
  unfold cellWindDirection
  have hu : listMeanQ ([((1 : ℚ), (0 : ℚ))].map Prod.fst) = 1 := by
    norm_num [listMeanQ]
  have hv : listMeanQ ([((1 : ℚ), (0 : ℚ))].map Prod.snd) = 0 := by
    norm_num [listMeanQ]
  rw [hu, hv]
  push_cast
  rw [arctan2_pos_y, halfpi_deg]
  norm_num

theorem cell_dir_west : cellWindDirection [((-1 : ℚ), (0 : ℚ))] = 90 := by
  unfold cellWindDirection
  have hu : listMeanQ ([((-1 : ℚ), (0 : ℚ))].map Prod.fst) = -1 := by
    norm_num [listMeanQ]
  have hv : listMeanQ ([((-1 : ℚ), (0 : ℚ))].map Prod.snd) = 0 := by
    norm_num [listMeanQ]
  rw [hu, hv]
  push_cast
  rw [arctan2_neg_y]
  have h90 : -(Real.pi / 2) * (180 / Real.pi) = -90 := by
    have := halfpi_deg
    nlinarith [halfpi_deg]
  rw [h90]
  norm_num

/-- C6 counterexample: a window with three cells, each with one time
sample, and wind vectors (1,0), (1,0), (-1,0).  The source averages the
three per cell directions 270, 270 and 90 into 210, while the spec
formula, applied to the spatially averaged components (1/3, 0), gives
270, so the source does not implement the components first reduction
the claim describes. -/
theorem wind_direction_not_component_mean :
    get_wdir_window [[((1 : ℚ), (0 : ℚ))], [(1, 0)], [(-1, 0)]] = 210 ∧
    wdirSpecWindow [[((1 : ℚ), (0 : ℚ))], [(1, 0)], [(-1, 0)]] = 270 ∧
    get_wdir_window [[((1 : ℚ), (0 : ℚ))], [(1, 0)], [(-1, 0)]] ≠
      wdirSpecWindow [[((1 : ℚ), (0 : ℚ))], [(1, 0)], [(-1, 0)]] := by
  have hcode : get_wdir_window [[((1 : ℚ), (0 : ℚ))], [(1, 0)], [(-1, 0)]] = 210 := by
    unfold get_wdir_window
    rw [List.map_cons, List.map_cons, List.map_cons, List.map_nil]
    rw [cell_dir_east, cell_dir_west]
    norm_num
  have hspec : wdirSpecWindow [[((1 : ℚ), (0 : ℚ))], [(1, 0)], [(-1, 0)]] = 270 := by
    unfold wdirSpecWindow
    have hu : listMeanQ ([[((1 : ℚ), (0 : ℚ))], [(1, 0)], [(-1, 0)]].map
        (fun c => listMeanQ (c.map Prod.fst))) = 1 / 3 := by
      norm_num [listMeanQ]
    have hv : listMeanQ ([[((1 : ℚ), (0 : ℚ))], [(1, 0)], [(-1, 0)]].map
        (fun c => listMeanQ (c.map Prod.snd))) = 0 := by
      norm_num [listMeanQ]
    rw [hu, hv]
    push_cast
    rw [arctan2_third, halfpi_deg]
    norm_num
  refine ⟨hcode, hspec, ?_⟩
  rw [hcode, hspec]
  norm_num

/-- C6 amended: the source averages the per cell direction angles
rather than the components; the two reductions coincide exactly when
the spatial mean runs over a single cell, as it does for the default
point region of the main block. -/
theorem wind_direction_single_cell (c : List (ℚ × ℚ)) :
    get_wdir_window [c] = wdirSpecWindow [c] := by
  unfold get_wdir_window wdirSpecWindow cellWindDirection
  simp only [List.map_cons, List.map_nil, List.sum_cons, List.sum_nil, List.length_cons,
    List.length_nil]
  rw [show listMeanQ [listMeanQ (c.map Prod.fst)] = listMeanQ (c.map Prod.fst) by
    simp [listMeanQ]]
  rw [show listMeanQ [listMeanQ (c.map Prod.snd)] = listMeanQ (c.map Prod.snd) by
    simp [listMeanQ]]
  push_cast
  ring
